import Mathlib

/-!
Verification of the pycache browser-history sanitization engine.

The definitions below are a shallow embedding of `src/browser_cleaner.py`
(class `BrowserDataCleaner`) and `src/delete_hx.py` (class
`BrowserHistoryCleaner`).  SQLite tables become Lean lists of rows, the
per-store mutation becomes a pure function from a store value to a count
and a new store value, and the filesystem side of a mutation cycle
(backup copy, working copy, swap, restore-on-failure) becomes an explicit
state machine over an abstract three-slot filesystem.
-/

namespace PyCache

/-- Seconds between the 1601-01-01 and 1970-01-01 epochs
(`chrome_epoch_offset` in `get_cutoff_time`). -/
def chrome_epoch_offset : Int := 11644473600

/-- The dictionary returned by `BrowserDataCleaner.get_cutoff_time`. -/
structure CutoffTimes where
  chrome : Int
  brave : Int
  firefox : Int
  unix : Int
deriving Repr, DecidableEq

/-- `BrowserDataCleaner.get_cutoff_time`, with the current wall clock
passed explicitly as integer unix seconds.  `time_range` is in hours and
`time_range = 0` means "all time".  The source computes with Python
floats; on the integer inputs considered here the float arithmetic is
exact, so integer arithmetic is a faithful embedding. -/
def get_cutoff_time (time_range : Nat) (current_time : Int) : CutoffTimes :=
  if time_range = 0 then
    ⟨0, 0, 0, 0⟩
  else
    let cutoff_time : Int := current_time - (time_range : Int) * 3600
    let chrome_cutoff : Int := (cutoff_time + chrome_epoch_offset) * 1000000
    let firefox_cutoff : Int := cutoff_time * 1000000
    ⟨chrome_cutoff, chrome_cutoff, firefox_cutoff, cutoff_time⟩

/-- One row of a Chromium-family `visits` table: the page reference and
the `visit_time` timestamp (microseconds since 1601). -/
structure VisitRow where
  url_id : Nat
  visit_time : Int
deriving Repr, DecidableEq

/-- A Chromium-family History store: the `urls` table (page ids), the
`visits` table and the `keyword_search_terms` table (rows keyed by
`url_id`; when the table is absent in the source the deletion no-ops,
which coincides with the empty list here). -/
structure ChromeStore where
  urls : List Nat
  visits : List VisitRow
  keyword_search_terms : List Nat
deriving Repr, DecidableEq

/-- Total number of table rows held in a Chromium-family store. -/
def ChromeStore.totalRows (s : ChromeStore) : Nat :=
  s.urls.length + s.visits.length + s.keyword_search_terms.length

/-- The successful pass of the history branch of
`BrowserDataCleaner.clean_chrome_data` over the working copy, as a pure
function on table contents.  It returns `(count_before, cleaned store)`:
* `time_range = 0`: count `urls`, then clear `urls`, `visits` and
  `keyword_search_terms`;
* otherwise: count visits with `visit_time > cutoff`; when at least one
  visit matches, delete those visits, delete their search terms, then
  delete every url not referenced by a remaining visit; when none
  matches, leave the store untouched. -/
def clean_chrome_history (time_range : Nat) (chrome_cutoff : Int)
    (s : ChromeStore) : Nat × ChromeStore :=
  if time_range = 0 then
    (s.urls.length, ⟨[], [], []⟩)
  else
    let matching := s.visits.filter (fun v => chrome_cutoff < v.visit_time)
    let count_before := matching.length
    let url_ids := matching.map (fun v => v.url_id)
    if url_ids = [] then
      (count_before, s)
    else
      let visits' :=
        s.visits.filter (fun v => !(decide (chrome_cutoff < v.visit_time)))
      let terms' := s.keyword_search_terms.filter (fun t => t ∉ url_ids)
      let urls' := s.urls.filter (fun u => u ∈ visits'.map (fun v => v.url_id))
      (count_before, ⟨urls', visits', terms'⟩)

/-- `BrowserDataCleaner.clean_brave_data` runs the identical history
mutation (same queries, same probing, same cutoff value). -/
def clean_brave_history : Nat → Int → ChromeStore → Nat × ChromeStore :=
  clean_chrome_history

/-- One row of Firefox's `moz_historyvisits` table. -/
structure MozVisit where
  place_id : Nat
  visit_date : Int
deriving Repr, DecidableEq

/-- A Firefox places store: `moz_places` (page ids), `moz_historyvisits`
and the `place_id` column of `moz_bookmarks`. -/
structure FirefoxStore where
  moz_places : List Nat
  moz_historyvisits : List MozVisit
  moz_bookmarks : List Nat
deriving Repr, DecidableEq

/-- The successful pass of the history branch of
`BrowserDataCleaner.clean_firefox_data` over the working copy:
* `time_range = 0`: count `moz_places`, delete all visits, then delete
  every place not referenced from `moz_bookmarks`;
* otherwise: count visits with `visit_date > cutoff`, delete them, then
  delete every place referenced neither by a remaining visit nor by a
  bookmark (this orphan sweep runs unconditionally). -/
def clean_firefox_history (time_range : Nat) (firefox_cutoff : Int)
    (s : FirefoxStore) : Nat × FirefoxStore :=
  if time_range = 0 then
    let count_before := s.moz_places.length
    let places' := s.moz_places.filter (fun p => p ∈ s.moz_bookmarks)
    (count_before, ⟨places', [], s.moz_bookmarks⟩)
  else
    let count_before :=
      (s.moz_historyvisits.filter (fun v => firefox_cutoff < v.visit_date)).length
    let visits' :=
      s.moz_historyvisits.filter (fun v => !(decide (firefox_cutoff < v.visit_date)))
    let places' := s.moz_places.filter
      (fun p => p ∈ visits'.map (fun v => v.place_id) ∨ p ∈ s.moz_bookmarks)
    (count_before, ⟨places', visits', s.moz_bookmarks⟩)

/-- Referential integrity of a Chromium-family store: every visit
references an existing url row, and (Chrome declares no preserved
relation) every url row is referenced by some visit. -/
def chromeIntegrity (s : ChromeStore) : Prop :=
  (∀ v ∈ s.visits, v.url_id ∈ s.urls) ∧
  (∀ u ∈ s.urls, ∃ v ∈ s.visits, v.url_id = u)

/-- Referential integrity of a Firefox store: every visit references an
existing place row, and every place row is referenced by a visit or by
the preserved `moz_bookmarks` relation. -/
def firefoxIntegrity (s : FirefoxStore) : Prop :=
  (∀ v ∈ s.moz_historyvisits, v.place_id ∈ s.moz_places) ∧
  (∀ p ∈ s.moz_places,
    (∃ v ∈ s.moz_historyvisits, v.place_id = p) ∨ p ∈ s.moz_bookmarks)

/-- The three on-disk roles a history file plays during one mutation
cycle: the live store, its `.bak` sibling, and the temporary working
copy (`history_temp.db` / `places_temp.sqlite`). -/
inductive FileRef
  | live
  | backup
  | temp
deriving Repr, DecidableEq

/-- The filesystem- and connection-level actions a handler performs, with
the file each one targets. -/
inductive Action
  | copyFile (src dst : FileRef)
  | connect (target : FileRef)
  | sqlDelete (target : FileRef)
  | sqlCommit (target : FileRef)
  | vacuum (target : FileRef)
  | removeFile (target : FileRef)
  | moveFile (src dst : FileRef)
deriving Repr, DecidableEq

/-- Success-path action trace of the history branch of
`BrowserDataCleaner.clean_chrome_data`: back up, copy, connect to the
copy, delete and commit there, vacuum, then swap and drop the backup. -/
def chrome_history_trace : List Action :=
  [.copyFile .live .backup, .copyFile .live .temp, .connect .temp,
   .sqlDelete .temp, .sqlCommit .temp, .vacuum .temp,
   .removeFile .live, .moveFile .temp .live, .removeFile .backup]

/-- Success-path action trace of the history branch of
`BrowserDataCleaner.clean_firefox_data` (same shape as Chrome). -/
def firefox_history_trace : List Action :=
  [.copyFile .live .backup, .copyFile .live .temp, .connect .temp,
   .sqlDelete .temp, .sqlCommit .temp, .vacuum .temp,
   .removeFile .live, .moveFile .temp .live, .removeFile .backup]

/-- Success-path action trace of the history branch of
`BrowserDataCleaner.clean_brave_data` (same shape as Chrome). -/
def brave_history_trace : List Action :=
  [.copyFile .live .backup, .copyFile .live .temp, .connect .temp,
   .sqlDelete .temp, .sqlCommit .temp, .vacuum .temp,
   .removeFile .live, .moveFile .temp .live, .removeFile .backup]

/-- Success-path action trace of the `History.db` branch of
`BrowserHistoryCleaner.clean_safari_history` in `src/delete_hx.py`: it
copies a backup and then connects to, deletes from, vacuums and commits
on the live file itself — no working copy exists. -/
def safari_history_trace : List Action :=
  [.copyFile .live .backup, .connect .live, .sqlDelete .live,
   .sqlDelete .live, .vacuum .live, .sqlCommit .live]

/-- Success-path action trace of `BrowserHistoryCleaner.clean_chrome_history`
(`delete_hx.py`): temp-copy based, backup left in place on success. -/
def hx_chrome_history_trace : List Action :=
  [.copyFile .live .backup, .copyFile .live .temp, .connect .temp,
   .sqlDelete .temp, .vacuum .temp, .sqlCommit .temp,
   .removeFile .live, .moveFile .temp .live]

/-- Success-path action trace of `BrowserHistoryCleaner.clean_firefox_history`
(`delete_hx.py`). -/
def hx_firefox_history_trace : List Action :=
  [.copyFile .live .backup, .copyFile .live .temp, .connect .temp,
   .sqlDelete .temp, .vacuum .temp, .sqlCommit .temp,
   .removeFile .live, .moveFile .temp .live]

/-- Success-path action trace of `BrowserHistoryCleaner.clean_brave_history`
(`delete_hx.py`). -/
def hx_brave_history_trace : List Action :=
  [.copyFile .live .backup, .copyFile .live .temp, .connect .temp,
   .sqlDelete .temp, .vacuum .temp, .sqlCommit .temp,
   .removeFile .live, .moveFile .temp .live]

/-- Every per-store history handler of the engine, with its trace. -/
def engine_history_handlers : List (String × List Action) :=
  [("clean_chrome_data", chrome_history_trace),
   ("clean_firefox_data", firefox_history_trace),
   ("clean_brave_data", brave_history_trace),
   ("clean_safari_history", safari_history_trace),
   ("clean_chrome_history", hx_chrome_history_trace),
   ("clean_firefox_history", hx_firefox_history_trace),
   ("clean_brave_history", hx_brave_history_trace)]

/-- An action that touches the live file other than by reading it for a
copy or replacing it in the final swap: opening a connection on it,
deleting from it, committing or vacuuming it. -/
def Action.mutatesLiveOutsideSwap : Action → Bool
  | .connect .live => true
  | .sqlDelete .live => true
  | .sqlCommit .live => true
  | .vacuum .live => true
  | _ => false

/-- A trace in which every deletion and every connection runs against a
working copy, the live file being touched only by the swap
(`removeFile live` / `moveFile temp live`). -/
def worksOnCopyOnly (tr : List Action) : Bool :=
  tr.all (fun a => !(a.mutatesLiveOutsideSwap))

/-- Error values the per-store history branch can raise: a missing
column surfacing from sqlite, or an injected OS error at a named step. -/
inductive PyErr
  | noSuchColumn (column : String)
  | osError (step : String)
deriving Repr, DecidableEq

/-- A Chromium-family store file together with its `visits` column names
(as reported by `PRAGMA table_info(visits)`). -/
structure ChromeDB where
  visits_columns : List String
  store : ChromeStore
deriving Repr, DecidableEq

/-- The alias probe of `clean_chrome_data`: pick `url_id` when present,
otherwise fall back to `url` without checking that it exists. -/
def url_id_column (visits_columns : List String) : String :=
  if "url_id" ∈ visits_columns then "url_id" else "url"

/-- The three file slots a mutation cycle works with (`none` = the file
does not exist). -/
structure StoreFS where
  live : Option ChromeDB
  backup : Option ChromeDB
  temp : Option ChromeDB
deriving Repr, DecidableEq

/-- Which filesystem steps of the swap are made to fail in a run. -/
structure FailureInjection where
  remove_live_fails : Bool
  move_fails : Bool
  restore_fails : Bool
deriving Repr, DecidableEq

/-- No injected failure: the nominal run. -/
def noInjection : FailureInjection := ⟨false, false, false⟩

/-- Outcome of the history branch for one store: skipped (no file),
cleaned with a reported count, an error caught and appended to
`self.errors` at the store boundary, or an exception raised inside the
`except` handler itself, which propagates out of the per-store loop. -/
inductive StoreOutcome
  | skipped
  | cleaned (rowsRemoved : Nat)
  | recordedError (e : PyErr)
  | escaped (e : PyErr)
deriving Repr, DecidableEq

/-- Whether an outcome escaped the per-store `try`/`except`. -/
def StoreOutcome.isEscaped : StoreOutcome → Bool
  | .escaped _ => true
  | _ => false

/-- The `except Exception` handler of the history branch: when a backup
exists and the live file is gone, copy the backup back (live restored,
backup and temp retained); if that copy itself fails the new exception
propagates with nothing recorded; otherwise the original error is
appended to the error list. -/
def handle_store_exception (inj : FailureInjection) (e : PyErr)
    (fs : StoreFS) : StoreOutcome × StoreFS :=
  if fs.backup.isSome ∧ fs.live.isNone then
    if inj.restore_fails then (.escaped (.osError "restore"), fs)
    else (.recordedError e, ⟨fs.backup, fs.backup, fs.temp⟩)
  else (.recordedError e, fs)

/-- The whole history branch of `clean_chrome_data` for one store, over
the abstract filesystem: back up, make the working copy, probe the
schema, count, mutate the copy (`clean_chrome_history`), then swap the
copy over the live file and delete the backup.  The page-reference
column is consulted only by the time-window `SELECT`, so its absence
raises only when `time_range ≠ 0`; injected failures at the swap's
remove and move steps raise at the corresponding filesystem state. -/
def clean_chrome_store (time_range : Nat) (chrome_cutoff : Int)
    (inj : FailureInjection) (fs0 : StoreFS) : StoreOutcome × StoreFS :=
  match fs0.live with
  | none => (.skipped, fs0)
  | some db =>
    let fs1 : StoreFS := ⟨some db, some db, some db⟩
    let col := url_id_column db.visits_columns
    if time_range ≠ 0 ∧ col ∉ db.visits_columns then
      handle_store_exception inj (.noSuchColumn col) fs1
    else
      let r := clean_chrome_history time_range chrome_cutoff db.store
      let cleaned : ChromeDB := ⟨db.visits_columns, r.2⟩
      let fs2 : StoreFS := ⟨some db, some db, some cleaned⟩
      if inj.remove_live_fails then
        handle_store_exception inj (.osError "remove") fs2
      else
        let fs3 : StoreFS := ⟨none, some db, some cleaned⟩
        if inj.move_fails then
          handle_store_exception inj (.osError "move") fs3
        else
          (.cleaned r.1, ⟨some cleaned, none, none⟩)

/-- The per-profile loop of `clean_chrome_data`: stores are processed in
order, each inside the per-store `try`/`except`; an exception escaping a
store's handler aborts the loop, leaving the remaining stores
unprocessed, and is returned as the pending family-level exception. -/
def run_profiles (time_range : Nat) (chrome_cutoff : Int) :
    List (FailureInjection × StoreFS) →
    List (StoreOutcome × StoreFS) × Option PyErr
  | [] => ([], none)
  | (inj, fs) :: rest =>
    let r := clean_chrome_store time_range chrome_cutoff inj fs
    match r.1 with
    | .escaped e => ([r], some e)
    | _ =>
      let rest_run := run_profiles time_range chrome_cutoff rest
      (r :: rest_run.1, rest_run.2)

/-- `BrowserDataCleaner.clean_browser_data`: each browser family's
handler is wrapped in its own `try`/`except`, so an exception escaping
one family's profile loop is recorded as that family's general error and
the remaining families still run. -/
def clean_browser_data (time_range : Nat) (chrome_cutoff : Int)
    (families : List (List (FailureInjection × StoreFS))) :
    List (List (StoreOutcome × StoreFS) × Option PyErr) :=
  families.map (run_profiles time_range chrome_cutoff)

/-- Filtering twice with the same predicate keeps the same rows. -/
theorem filter_filter_same {α : Type} (p : α → Bool) (l : List α) :
    (l.filter p).filter p = l.filter p := by
  induction l with
  | nil => rfl
  | cons a l ih =>
    by_cases h : p a = true <;> simp [List.filter_cons, h, ih]

/-- Rows kept by the negated predicate all fail the predicate. -/
theorem filter_pos_of_filter_neg {α : Type} (p : α → Bool) (l : List α) :
    (l.filter (fun a => !(p a))).filter p = [] := by
  induction l with
  | nil => rfl
  | cons a l ih =>
    by_cases h : p a = true <;> simp [List.filter_cons, h, ih]

/-- A list splits, in length, into the rows matching a predicate and the
rows failing it. -/
theorem length_filter_add_length_filter_not {α : Type} (p : α → Bool)
    (l : List α) :
    (l.filter p).length + (l.filter (fun a => !(p a))).length = l.length := by
  induction l with
  | nil => rfl
  | cons a l ih =>
    by_cases h : p a = true <;>
      simp [List.filter_cons, h, ← ih, Nat.add_assoc, Nat.add_comm,
        Nat.add_left_comm]

end PyCache

namespace PyCache

/-- C2: for `now = 1700000000` and a one-hour window the Chromium cutoff
is `(1700000000 - 3600 + 11644473600) * 1000000` and the Gecko cutoff is
`(1700000000 - 3600) * 1000000`; for every now and window the Chromium
and Brave cutoffs are the same value. -/
theorem cutoff_epoch_conversion :
    (get_cutoff_time 1 1700000000).chrome =
      (1700000000 - 3600 + 11644473600) * 1000000 ∧
    (get_cutoff_time 1 1700000000).firefox = (1700000000 - 3600) * 1000000 ∧
    ∀ (tr : Nat) (now : Int),
      (get_cutoff_time tr now).chrome = (get_cutoff_time tr now).brave := by
  refine ⟨by norm_num [get_cutoff_time, chrome_epoch_offset],
          by norm_num [get_cutoff_time], ?_⟩
  intro tr now
  by_cases h : tr = 0 <;> simp [get_cutoff_time, h]

end PyCache

namespace PyCache

/-- C1 counterexample: with a one-hour window at `now = 3600` the Gecko
cutoff is `0`; a store holding one visit dated exactly at the cutoff is
returned unchanged, so a visit whose timestamp equals the cutoff is NOT
removed (the source deletes only `visit_time > cutoff`, strictly). -/
theorem visit_at_exact_cutoff_survives :
    ((clean_firefox_history 1 ((get_cutoff_time 1 3600).firefox)
        ⟨[1], [⟨1, 0⟩], []⟩).2.moz_historyvisits.any
      (fun v => (get_cutoff_time 1 3600).firefox ≤ v.visit_date)) = true := by
  decide

/-- C1 (amended): for every window `RelativeHours(h)` with `h > 0`, after
the mutation no remaining visit row has a timestamp STRICTLY newer than
the corresponding cutoff in its family's native unit; a row dated exactly
at the cutoff is retained (boundary exclusive). -/
theorem remaining_visits_not_after_cutoff (h : Nat) (now : Int)
    (s : ChromeStore) (f : FirefoxStore) (hh : h ≠ 0) :
    (∀ v ∈ (clean_chrome_history h ((get_cutoff_time h now).chrome) s).2.visits,
        v.visit_time ≤ (get_cutoff_time h now).chrome) ∧
    (∀ w ∈ (clean_firefox_history h ((get_cutoff_time h now).firefox) f).2.moz_historyvisits,
        w.visit_date ≤ (get_cutoff_time h now).firefox) := by
  constructor
  · intro v hv
    unfold clean_chrome_history at hv
    simp only [hh, if_false] at hv
    by_cases hm : (s.visits.filter
        (fun v => decide ((get_cutoff_time h now).chrome < v.visit_time))).map
        (fun v => v.url_id) = []
    · simp only [hm, if_pos rfl] at hv
      rcases List.map_eq_nil_iff.mp hm with hnil
      have := List.filter_eq_nil_iff.mp hnil v hv
      simpa using this
    · simp only [hm, if_neg hm] at hv
      have := List.of_mem_filter hv
      simpa using this
  · intro w hw
    unfold clean_firefox_history at hw
    simp only [hh, if_false] at hw
    have := List.of_mem_filter hw
    simpa using this

/-- Witness for `remaining_visits_not_after_cutoff` at one hour, now 0,
and singleton stores. -/
theorem remaining_visits_not_after_cutoff_witness :
    (1 : Nat) ≠ 0 ∧
    ((∀ v ∈ (clean_chrome_history 1 ((get_cutoff_time 1 0).chrome)
          ⟨[1], [⟨1, 0⟩], []⟩).2.visits,
        v.visit_time ≤ (get_cutoff_time 1 0).chrome) ∧
     (∀ w ∈ (clean_firefox_history 1 ((get_cutoff_time 1 0).firefox)
          ⟨[1], [⟨1, 0⟩], []⟩).2.moz_historyvisits,
        w.visit_date ≤ (get_cutoff_time 1 0).firefox)) :=
  ⟨by decide,
   remaining_visits_not_after_cutoff 1 0 ⟨[1], [⟨1, 0⟩], []⟩
     ⟨[1], [⟨1, 0⟩], []⟩ (by decide)⟩

/-- C5: under the all-time window a successful mutation leaves the
Chromium `visits` and `urls` tables empty, and the Firefox visit table
empty with every remaining place referenced from `moz_bookmarks` (the
preserved relation). -/
theorem alltime_clears_tables (c : Int) (s : ChromeStore) (f : FirefoxStore) :
    (clean_chrome_history 0 c s).2.urls = [] ∧
    (clean_chrome_history 0 c s).2.visits = [] ∧
    (clean_firefox_history 0 c f).2.moz_historyvisits = [] ∧
    ∀ p ∈ (clean_firefox_history 0 c f).2.moz_places, p ∈ f.moz_bookmarks := by
  refine ⟨rfl, rfl, rfl, ?_⟩
  intro p hp
  unfold clean_firefox_history at hp
  simp only [if_pos rfl] at hp
  have := List.of_mem_filter hp
  simpa using this

end PyCache

namespace PyCache

/-- C3 counterexample: the working-copy discipline fails on the engine's
own WebKit handler — `clean_safari_history` opens its sqlite connection
on the live `History.db` and runs its deletions there, so it is not true
that every store is mutated only through a temporary copy. -/
theorem some_handler_mutates_live_file :
    (engine_history_handlers.all (fun h => worksOnCopyOnly h.2)) = false := by
  decide

/-- C3 (amended): in the Chromium- and Gecko-family handlers every
connection is opened on the temporary working copy and every deletion
runs there, the live file being touched only by the final swap; the
Safari handler instead connects to and deletes from the live file. -/
theorem chromium_gecko_handlers_work_on_copy :
    worksOnCopyOnly chrome_history_trace = true ∧
    worksOnCopyOnly firefox_history_trace = true ∧
    worksOnCopyOnly brave_history_trace = true ∧
    worksOnCopyOnly hx_chrome_history_trace = true ∧
    worksOnCopyOnly hx_firefox_history_trace = true ∧
    worksOnCopyOnly hx_brave_history_trace = true ∧
    worksOnCopyOnly safari_history_trace = false := by
  decide

end PyCache

namespace PyCache

/-- C4 counterexample: a Chromium store holding one url row and no
visits, cleaned under a one-hour window, is returned unchanged (no visit
matches the cutoff, so the orphan sweep is skipped): the url row
survives although nothing references it, so the post-mutation
referential-integrity invariant fails. -/
theorem orphan_page_survives_mutation :
    (clean_chrome_history 1 0 ⟨[1], [], []⟩).2.urls = [1] ∧
    ¬ chromeIntegrity (clean_chrome_history 1 0 ⟨[1], [], []⟩).2 := by
  refine ⟨rfl, ?_⟩
  unfold chromeIntegrity
  decide

/-- C4 (amended): the mutation PRESERVES referential integrity rather
than restoring it: when the input store already satisfies the invariant
(every visit references an existing page; every Chrome url row has a
referencing visit; every Firefox visit references an existing place),
the store produced by a successful mutation satisfies it again, for
every window. -/
theorem integrity_preserved_by_mutation (tr : Nat) (c : Int)
    (s : ChromeStore) (f : FirefoxStore)
    (hs : chromeIntegrity s)
    (hf : ∀ v ∈ f.moz_historyvisits, v.place_id ∈ f.moz_places) :
    chromeIntegrity (clean_chrome_history tr c s).2 ∧
    firefoxIntegrity (clean_firefox_history tr c f).2 := by
  constructor
  · by_cases htr : tr = 0
    · subst htr
      constructor <;> intro x hx <;> simp [clean_chrome_history] at hx
    · unfold clean_chrome_history chromeIntegrity
      simp only [if_neg htr]
      split
      · exact hs
      · refine ⟨?_, ?_⟩
        · intro v hv
          simp only [List.mem_filter, List.mem_map, decide_eq_true_eq] at hv ⊢
          exact ⟨hs.1 v hv.1, v, hv, rfl⟩
        · intro u hu
          simp only [List.mem_filter, List.mem_map, decide_eq_true_eq] at hu ⊢
          obtain ⟨hus, v, hv, hvu⟩ := hu
          exact ⟨v, hv, hvu⟩
  · by_cases htr : tr = 0
    · subst htr
      unfold clean_firefox_history firefoxIntegrity
      simp only [ite_true]
      refine ⟨?_, ?_⟩
      · intro v hv
        simp at hv
      · intro p hp
        simp only [List.mem_filter, decide_eq_true_eq] at hp
        exact Or.inr hp.2
    · unfold clean_firefox_history firefoxIntegrity
      simp only [if_neg htr]
      refine ⟨?_, ?_⟩
      · intro v hv
        simp only [List.mem_filter, List.mem_map, decide_eq_true_eq] at hv ⊢
        exact ⟨hf v hv.1, Or.inl ⟨v, hv, rfl⟩⟩
      · intro p hp
        simp only [List.mem_filter, List.mem_map, decide_eq_true_eq] at hp ⊢
        rcases hp.2 with ⟨v, hv, hvp⟩ | hb
        · exact Or.inl ⟨v, hv, hvp⟩
        · exact Or.inr hb

/-- Witness for `integrity_preserved_by_mutation` on singleton stores
that satisfy the integrity hypotheses. -/
theorem integrity_preserved_by_mutation_witness :
    chromeIntegrity ⟨[1], [⟨1, 7⟩], []⟩ ∧
    (∀ v ∈ ([⟨1, 7⟩] : List MozVisit), v.place_id ∈ ([1] : List Nat)) ∧
    (chromeIntegrity (clean_chrome_history 1 0 ⟨[1], [⟨1, 7⟩], []⟩).2 ∧
     firefoxIntegrity (clean_firefox_history 1 0 ⟨[1], [⟨1, 7⟩], []⟩).2) := by
  have h1 : chromeIntegrity ⟨[1], [⟨1, 7⟩], []⟩ := by
    unfold chromeIntegrity
    decide
  have h2 : ∀ v ∈ ([⟨1, 7⟩] : List MozVisit), v.place_id ∈ ([1] : List Nat) := by
    decide
  exact ⟨h1, h2,
    integrity_preserved_by_mutation 1 0 ⟨[1], [⟨1, 7⟩], []⟩ ⟨[1], [⟨1, 7⟩], []⟩ h1 h2⟩

end PyCache

namespace PyCache

/-- C6 counterexample: for a Chromium store with two visits past the
cutoff referencing one url row, the reported count is 2 but the deletion
then removes 3 rows (the two visits plus the orphaned url), so the
reported number does not equal the number of rows the deletion
removes. -/
theorem reported_count_not_total_rows_removed :
    (clean_chrome_history 1 5 ⟨[1], [⟨1, 10⟩, ⟨1, 11⟩], []⟩).1 = 2 ∧
    (⟨[1], [⟨1, 10⟩, ⟨1, 11⟩], []⟩ : ChromeStore).totalRows -
      ((clean_chrome_history 1 5 ⟨[1], [⟨1, 10⟩, ⟨1, 11⟩], []⟩).2).totalRows = 3 ∧
    (clean_chrome_history 1 5 ⟨[1], [⟨1, 10⟩, ⟨1, 11⟩], []⟩).1 ≠
      (⟨[1], [⟨1, 10⟩, ⟨1, 11⟩], []⟩ : ChromeStore).totalRows -
        ((clean_chrome_history 1 5 ⟨[1], [⟨1, 10⟩, ⟨1, 11⟩], []⟩).2).totalRows := by
  refine ⟨by decide, by decide, by decide⟩

/-- C6 (amended): the reported count is taken strictly before deletion;
for a RelativeHours window it equals exactly the number of VISIT rows the
deletion removes (Chromium and Gecko), and under AllTime it equals the
number of url rows removed for Chromium, respectively the full
pre-deletion page count for Firefox (which can exceed the rows actually
removed when bookmarked pages are preserved); it does not count the
orphaned page or search-term rows removed alongside. -/
theorem reported_count_matches_counted_table (tr : Nat) (c : Int)
    (s : ChromeStore) (f : FirefoxStore) (h : tr ≠ 0) :
    (clean_chrome_history tr c s).1 =
      s.visits.length - (clean_chrome_history tr c s).2.visits.length ∧
    (clean_firefox_history tr c f).1 =
      f.moz_historyvisits.length -
        (clean_firefox_history tr c f).2.moz_historyvisits.length ∧
    (clean_chrome_history 0 c s).1 =
      s.urls.length - (clean_chrome_history 0 c s).2.urls.length ∧
    (clean_firefox_history 0 c f).1 = f.moz_places.length := by
  refine ⟨?_, ?_, ?_, ?_⟩
  · unfold clean_chrome_history
    simp only [if_neg h]
    split
    · next hm =>
      rw [List.map_eq_nil_iff.mp hm]
      simp
    · show (s.visits.filter (fun v => decide (c < v.visit_time))).length =
        s.visits.length -
          (s.visits.filter (fun v => !(decide (c < v.visit_time)))).length
      have hlen := length_filter_add_length_filter_not
        (fun v => decide (c < v.visit_time)) s.visits
      omega
  · unfold clean_firefox_history
    simp only [if_neg h]
    show (f.moz_historyvisits.filter (fun v => decide (c < v.visit_date))).length =
      f.moz_historyvisits.length -
        (f.moz_historyvisits.filter (fun v => !(decide (c < v.visit_date)))).length
    have hlen := length_filter_add_length_filter_not
      (fun v => decide (c < v.visit_date)) f.moz_historyvisits
    omega
  · simp [clean_chrome_history]
  · simp [clean_firefox_history]

/-- Witness for `reported_count_matches_counted_table` at a one-row
store and cutoff 5. -/
theorem reported_count_matches_counted_table_witness :
    (1 : Nat) ≠ 0 ∧
    ((clean_chrome_history 1 5 ⟨[1], [⟨1, 10⟩], []⟩).1 =
      (⟨[1], [⟨1, 10⟩], []⟩ : ChromeStore).visits.length -
        (clean_chrome_history 1 5 ⟨[1], [⟨1, 10⟩], []⟩).2.visits.length ∧
    (clean_firefox_history 1 5 ⟨[1], [⟨1, 10⟩], [1]⟩).1 =
      (⟨[1], [⟨1, 10⟩], [1]⟩ : FirefoxStore).moz_historyvisits.length -
        (clean_firefox_history 1 5 ⟨[1], [⟨1, 10⟩], [1]⟩).2.moz_historyvisits.length ∧
    (clean_chrome_history 0 5 ⟨[1], [⟨1, 10⟩], []⟩).1 =
      (⟨[1], [⟨1, 10⟩], []⟩ : ChromeStore).urls.length -
        (clean_chrome_history 0 5 ⟨[1], [⟨1, 10⟩], []⟩).2.urls.length ∧
    (clean_firefox_history 0 5 ⟨[1], [⟨1, 10⟩], [1]⟩).1 =
      (⟨[1], [⟨1, 10⟩], [1]⟩ : FirefoxStore).moz_places.length) :=
  ⟨by decide,
   reported_count_matches_counted_table 1 5 ⟨[1], [⟨1, 10⟩], []⟩
     ⟨[1], [⟨1, 10⟩], [1]⟩ (by decide)⟩

end PyCache

namespace PyCache

/-- Equation for the window branch of `clean_chrome_history` when at
least one visit matches the cutoff. -/
theorem clean_chrome_history_window_eq (tr : Nat) (c : Int) (s : ChromeStore)
    (h : tr ≠ 0)
    (hm : (s.visits.filter (fun v => decide (c < v.visit_time))).map
        (fun v => v.url_id) ≠ []) :
    clean_chrome_history tr c s =
      ((s.visits.filter (fun v => decide (c < v.visit_time))).length,
       ⟨s.urls.filter (fun u => decide (u ∈ (s.visits.filter
            (fun v => !(decide (c < v.visit_time)))).map (fun v => v.url_id))),
        s.visits.filter (fun v => !(decide (c < v.visit_time))),
        s.keyword_search_terms.filter (fun t => decide (t ∉ (s.visits.filter
            (fun v => decide (c < v.visit_time))).map (fun v => v.url_id)))⟩) := by
  simp only [clean_chrome_history, if_neg h, if_neg hm]

/-- Equation for the window branch of `clean_chrome_history` when no
visit matches the cutoff: the store is returned untouched. -/
theorem clean_chrome_history_no_match_eq (tr : Nat) (c : Int) (s : ChromeStore)
    (h : tr ≠ 0)
    (hm : (s.visits.filter (fun v => decide (c < v.visit_time))).map
        (fun v => v.url_id) = []) :
    clean_chrome_history tr c s =
      ((s.visits.filter (fun v => decide (c < v.visit_time))).length, s) := by
  simp only [clean_chrome_history, if_neg h, if_pos hm]

/-- Equation for the window branch of `clean_firefox_history`. -/
theorem clean_firefox_history_window_eq (tr : Nat) (c : Int) (f : FirefoxStore)
    (h : tr ≠ 0) :
    clean_firefox_history tr c f =
      ((f.moz_historyvisits.filter (fun v => decide (c < v.visit_date))).length,
       ⟨f.moz_places.filter (fun p => decide (p ∈ (f.moz_historyvisits.filter
            (fun v => !(decide (c < v.visit_date)))).map (fun v => v.place_id) ∨
            p ∈ f.moz_bookmarks)),
        f.moz_historyvisits.filter (fun v => !(decide (c < v.visit_date))),
        f.moz_bookmarks⟩) := by
  simp only [clean_firefox_history, if_neg h]

/-- C7 counterexample: for a Firefox store whose only place is
bookmarked, under AllTime the second run leaves the store unchanged but
reports `rowsRemoved = 1`, not `0`: the AllTime count is taken over
`moz_places` including the preserved bookmarked pages. -/
theorem second_alltime_run_reports_nonzero :
    (clean_firefox_history 0 0
      (clean_firefox_history 0 0 ⟨[1], [], [1]⟩).2).1 = 1 ∧
    (clean_firefox_history 0 0
      (clean_firefox_history 0 0 ⟨[1], [], [1]⟩).2).1 ≠ 0 := by
  refine ⟨by decide, by decide⟩

/-- C7 (amended): a second run with the same window and current instant
always leaves the table contents unchanged; it reports `rowsRemoved = 0`
for every RelativeHours window and for Chromium AllTime, but for Firefox
AllTime it reports the number of preserved (bookmarked) pages still in
the store. -/
theorem second_run_leaves_store_unchanged (tr : Nat) (c : Int)
    (s : ChromeStore) (f : FirefoxStore) (h : tr ≠ 0) :
    ((clean_chrome_history tr c (clean_chrome_history tr c s).2).2 =
       (clean_chrome_history tr c s).2 ∧
     (clean_chrome_history tr c (clean_chrome_history tr c s).2).1 = 0) ∧
    ((clean_firefox_history tr c (clean_firefox_history tr c f).2).2 =
       (clean_firefox_history tr c f).2 ∧
     (clean_firefox_history tr c (clean_firefox_history tr c f).2).1 = 0) ∧
    ((clean_chrome_history 0 c (clean_chrome_history 0 c s).2).2 =
       (clean_chrome_history 0 c s).2 ∧
     (clean_chrome_history 0 c (clean_chrome_history 0 c s).2).1 = 0) ∧
    ((clean_firefox_history 0 c (clean_firefox_history 0 c f).2).2 =
       (clean_firefox_history 0 c f).2 ∧
     (clean_firefox_history 0 c (clean_firefox_history 0 c f).2).1 =
       (clean_firefox_history 0 c f).2.moz_places.length) := by
  refine ⟨?_, ⟨?_, ?_⟩, ?_, ⟨?_, rfl⟩⟩
  · by_cases hm : (s.visits.filter (fun v => decide (c < v.visit_time))).map
        (fun v => v.url_id) = []
    · have e1 := clean_chrome_history_no_match_eq tr c s h hm
      constructor <;>
        simp only [e1, List.map_eq_nil_iff.mp hm, List.length_nil]
    · have e2 := clean_chrome_history_window_eq tr c s h hm
      constructor <;> rw [e2] <;>
        simp only [clean_chrome_history, if_neg h, filter_pos_of_filter_neg,
          List.map_nil, List.length_nil, reduceIte]
  · have e3 := clean_firefox_history_window_eq tr c f h
    rw [e3]
    simp only [clean_firefox_history, if_neg h, filter_filter_same]
  · have e3 := clean_firefox_history_window_eq tr c f h
    rw [e3]
    simp only [clean_firefox_history, if_neg h, filter_pos_of_filter_neg,
      List.length_nil]
  · constructor <;> simp [clean_chrome_history]
  · simp only [clean_firefox_history, reduceIte, filter_filter_same]

/-- Witness for `second_run_leaves_store_unchanged` at a one-hour window
and singleton stores. -/
theorem second_run_leaves_store_unchanged_witness :
    (1 : Nat) ≠ 0 ∧
    (((clean_chrome_history 1 5
         (clean_chrome_history 1 5 ⟨[1], [⟨1, 10⟩], []⟩).2).2 =
        (clean_chrome_history 1 5 ⟨[1], [⟨1, 10⟩], []⟩).2 ∧
      (clean_chrome_history 1 5
         (clean_chrome_history 1 5 ⟨[1], [⟨1, 10⟩], []⟩).2).1 = 0) ∧
     ((clean_firefox_history 1 5
         (clean_firefox_history 1 5 ⟨[1], [⟨1, 10⟩], [1]⟩).2).2 =
        (clean_firefox_history 1 5 ⟨[1], [⟨1, 10⟩], [1]⟩).2 ∧
      (clean_firefox_history 1 5
         (clean_firefox_history 1 5 ⟨[1], [⟨1, 10⟩], [1]⟩).2).1 = 0) ∧
     ((clean_chrome_history 0 5
         (clean_chrome_history 0 5 ⟨[1], [⟨1, 10⟩], []⟩).2).2 =
        (clean_chrome_history 0 5 ⟨[1], [⟨1, 10⟩], []⟩).2 ∧
      (clean_chrome_history 0 5
         (clean_chrome_history 0 5 ⟨[1], [⟨1, 10⟩], []⟩).2).1 = 0) ∧
     ((clean_firefox_history 0 5
         (clean_firefox_history 0 5 ⟨[1], [⟨1, 10⟩], [1]⟩).2).2 =
        (clean_firefox_history 0 5 ⟨[1], [⟨1, 10⟩], [1]⟩).2 ∧
      (clean_firefox_history 0 5
         (clean_firefox_history 0 5 ⟨[1], [⟨1, 10⟩], [1]⟩).2).1 =
        (clean_firefox_history 0 5 ⟨[1], [⟨1, 10⟩], [1]⟩).2.moz_places.length)) :=
  ⟨by decide,
   second_run_leaves_store_unchanged 1 5 ⟨[1], [⟨1, 10⟩], []⟩
     ⟨[1], [⟨1, 10⟩], [1]⟩ (by decide)⟩

end PyCache

namespace PyCache

/-- C8 counterexample: a store whose visits table has neither `url_id`
nor `url` does not fail at all under the all-time window — the deletion
path never consults the page-reference column, so the mutation succeeds,
reports the url count and replaces the live file (no SchemaMismatch). -/
theorem aliasless_store_succeeds_under_alltime :
    (clean_chrome_store 0 0 noInjection
        ⟨some ⟨["id", "visit_time"], ⟨[1], [⟨1, 5⟩], []⟩⟩, none, none⟩).1 =
      .cleaned 1 ∧
    (clean_chrome_store 0 0 noInjection
        ⟨some ⟨["id", "visit_time"], ⟨[1], [⟨1, 5⟩], []⟩⟩, none, none⟩).2.live =
      some ⟨["id", "visit_time"], ⟨[], [], []⟩⟩ := by
  refine ⟨by decide, by decide⟩

/-- C8 (amended): under a RelativeHours window a store lacking both
aliases fails with a recorded generic missing-column error (the fallback
column `url` is selected and does not exist; there is no distinct
SchemaMismatch kind), the live file is left untouched and the backup is
retained — but the temporary working copy is left behind as well; under
AllTime such a store is mutated successfully. -/
theorem aliasless_store_error_under_window (tr : Nat) (c : Int)
    (db : ChromeDB) (h : tr ≠ 0)
    (hc1 : "url_id" ∉ db.visits_columns)
    (hc2 : "url" ∉ db.visits_columns) :
    clean_chrome_store tr c noInjection ⟨some db, none, none⟩ =
      (.recordedError (.noSuchColumn "url"), ⟨some db, some db, some db⟩) := by
  have hcol : url_id_column db.visits_columns = "url" := by
    unfold url_id_column
    exact if_neg hc1
  have hcond : tr ≠ 0 ∧ url_id_column db.visits_columns ∉ db.visits_columns := by
    rw [hcol]
    exact ⟨h, hc2⟩
  simp [clean_chrome_store, handle_store_exception, hcond, hcol]
  intro hmem
  exact absurd hmem hc2

/-- Witness for `aliasless_store_error_under_window` at a one-hour
window and a two-column schema. -/
theorem aliasless_store_error_under_window_witness :
    ((1 : Nat) ≠ 0 ∧ "url_id" ∉ (["id", "visit_time"] : List String) ∧
      "url" ∉ (["id", "visit_time"] : List String)) ∧
    clean_chrome_store 1 0 noInjection
        ⟨some ⟨["id", "visit_time"], ⟨[1], [⟨1, 5⟩], []⟩⟩, none, none⟩ =
      (.recordedError (.noSuchColumn "url"),
       ⟨some ⟨["id", "visit_time"], ⟨[1], [⟨1, 5⟩], []⟩⟩,
        some ⟨["id", "visit_time"], ⟨[1], [⟨1, 5⟩], []⟩⟩,
        some ⟨["id", "visit_time"], ⟨[1], [⟨1, 5⟩], []⟩⟩⟩) :=
  ⟨⟨by decide, by decide, by decide⟩,
   aliasless_store_error_under_window 1 0
     ⟨["id", "visit_time"], ⟨[1], [⟨1, 5⟩], []⟩⟩
     (by decide) (by decide) (by decide)⟩

end PyCache

namespace PyCache

/-- C9 counterexample: when the swap's move fails after the live file
was removed AND the restore copy then fails too, the engine does not
report any distinct RestoreFailed condition: the restore exception
escapes the per-store handler with nothing recorded for the store and
the live file is left missing. -/
theorem swap_restore_failure_escapes :
    (clean_chrome_store 1 0 ⟨false, true, true⟩
        ⟨some ⟨["url_id", "visit_time"], ⟨[1], [⟨1, 5⟩], []⟩⟩, none, none⟩).1 =
      .escaped (.osError "restore") ∧
    (clean_chrome_store 1 0 ⟨false, true, true⟩
        ⟨some ⟨["url_id", "visit_time"], ⟨[1], [⟨1, 5⟩], []⟩⟩, none, none⟩).2.live =
      none := by
  refine ⟨by decide, by decide⟩

/-- C9 (amended): when the swap's move fails after the live file was
removed, the engine restores the live file from the backup, records the
original error at the store boundary and retains the backup; when the
restore itself also fails, the exception escapes the per-store handler
(no distinct RestoreFailed report, nothing recorded for that store),
with the backup still retained but the live file missing. -/
theorem swap_failure_restores_from_backup (tr : Nat) (c : Int)
    (db : ChromeDB)
    (hcol : url_id_column db.visits_columns ∈ db.visits_columns) :
    clean_chrome_store tr c ⟨false, true, false⟩ ⟨some db, none, none⟩ =
      (.recordedError (.osError "move"),
       ⟨some db, some db,
        some ⟨db.visits_columns, (clean_chrome_history tr c db.store).2⟩⟩) ∧
    clean_chrome_store tr c ⟨false, true, true⟩ ⟨some db, none, none⟩ =
      (.escaped (.osError "restore"),
       ⟨none, some db,
        some ⟨db.visits_columns, (clean_chrome_history tr c db.store).2⟩⟩) := by
  have hcond : ¬ (tr ≠ 0 ∧ url_id_column db.visits_columns ∉ db.visits_columns) :=
    fun hand => hand.2 hcol
  constructor <;> simp [clean_chrome_store, handle_store_exception, hcond]

/-- Witness for `swap_failure_restores_from_backup` at a one-hour window
and a `url_id` schema. -/
theorem swap_failure_restores_from_backup_witness :
    url_id_column ["url_id", "visit_time"] ∈ (["url_id", "visit_time"] : List String) ∧
    (clean_chrome_store 1 0 ⟨false, true, false⟩
        ⟨some ⟨["url_id", "visit_time"], ⟨[1], [⟨1, 5⟩], []⟩⟩, none, none⟩ =
      (.recordedError (.osError "move"),
       ⟨some ⟨["url_id", "visit_time"], ⟨[1], [⟨1, 5⟩], []⟩⟩,
        some ⟨["url_id", "visit_time"], ⟨[1], [⟨1, 5⟩], []⟩⟩,
        some ⟨["url_id", "visit_time"],
          (clean_chrome_history 1 0 ⟨[1], [⟨1, 5⟩], []⟩).2⟩⟩) ∧
    clean_chrome_store 1 0 ⟨false, true, true⟩
        ⟨some ⟨["url_id", "visit_time"], ⟨[1], [⟨1, 5⟩], []⟩⟩, none, none⟩ =
      (.escaped (.osError "restore"),
       ⟨none, some ⟨["url_id", "visit_time"], ⟨[1], [⟨1, 5⟩], []⟩⟩,
        some ⟨["url_id", "visit_time"],
          (clean_chrome_history 1 0 ⟨[1], [⟨1, 5⟩], []⟩).2⟩⟩)) :=
  ⟨by decide,
   swap_failure_restores_from_backup 1 0
     ⟨["url_id", "visit_time"], ⟨[1], [⟨1, 5⟩], []⟩⟩ (by decide)⟩

end PyCache

namespace PyCache

/-- C10 counterexample: a restore failure raised inside the per-store
except handler escapes the store boundary and aborts the family's
profile loop — of two stores the second is never processed (only one
outcome is produced) and the error surfaces at the family level. -/
theorem restore_failure_skips_remaining_profiles :
    (run_profiles 1 0
        [(⟨false, true, true⟩,
          ⟨some ⟨["url_id", "visit_time"], ⟨[1], [⟨1, 5⟩], []⟩⟩, none, none⟩),
         (noInjection,
          ⟨some ⟨["url_id", "visit_time"], ⟨[1], [⟨1, 5⟩], []⟩⟩, none, none⟩)]).1.length
      = 1 ∧
    (run_profiles 1 0
        [(⟨false, true, true⟩,
          ⟨some ⟨["url_id", "visit_time"], ⟨[1], [⟨1, 5⟩], []⟩⟩, none, none⟩),
         (noInjection,
          ⟨some ⟨["url_id", "visit_time"], ⟨[1], [⟨1, 5⟩], []⟩⟩, none, none⟩)]).2
      = some (.osError "restore") := by
  refine ⟨by decide, by decide⟩

/-- C10 (amended): every failure that the per-store handler itself
survives is recorded at the store boundary and the remaining stores of
the family are processed exactly as they would be alone; and families
are wrapped in their own handlers, so a family's run — even one ending
in an escaped exception — never prevents the following families from
running.  The sole breach of the claim is an escaped restore failure,
which skips the rest of its own family's profiles. -/
theorem store_failure_is_isolated (tr : Nat) (c : Int)
    (inj : FailureInjection) (fs : StoreFS)
    (rest fam : List (FailureInjection × StoreFS))
    (fams : List (List (FailureInjection × StoreFS)))
    (h : (clean_chrome_store tr c inj fs).1.isEscaped = false) :
    (run_profiles tr c ((inj, fs) :: rest)).1 =
      clean_chrome_store tr c inj fs :: (run_profiles tr c rest).1 ∧
    clean_browser_data tr c (fam :: fams) =
      run_profiles tr c fam :: clean_browser_data tr c fams := by
  constructor
  · cases hr : (clean_chrome_store tr c inj fs).1 with
    | escaped e =>
      rw [hr] at h
      simp [StoreOutcome.isEscaped] at h
    | skipped => simp only [run_profiles, hr]
    | cleaned n => simp only [run_profiles, hr]
    | recordedError e => simp only [run_profiles, hr]
  · rfl

/-- Witness for `store_failure_is_isolated` on a failing first store (a
recorded move error, which the handler survives) followed by a healthy
store. -/
theorem store_failure_is_isolated_witness :
    ((clean_chrome_store 1 0 ⟨false, true, false⟩
        ⟨some ⟨["url_id", "visit_time"], ⟨[1], [⟨1, 5⟩], []⟩⟩, none, none⟩).1.isEscaped
      = false) ∧
    ((run_profiles 1 0
        [(⟨false, true, false⟩,
          ⟨some ⟨["url_id", "visit_time"], ⟨[1], [⟨1, 5⟩], []⟩⟩, none, none⟩),
         (noInjection,
          ⟨some ⟨["url_id", "visit_time"], ⟨[1], [⟨1, 5⟩], []⟩⟩, none, none⟩)]).1 =
      clean_chrome_store 1 0 ⟨false, true, false⟩
          ⟨some ⟨["url_id", "visit_time"], ⟨[1], [⟨1, 5⟩], []⟩⟩, none, none⟩ ::
        (run_profiles 1 0
          [(noInjection,
            ⟨some ⟨["url_id", "visit_time"], ⟨[1], [⟨1, 5⟩], []⟩⟩, none, none⟩)]).1 ∧
     clean_browser_data 1 0 ([] :: []) =
       run_profiles 1 0 [] :: clean_browser_data 1 0 []) :=
  ⟨by decide,
   store_failure_is_isolated 1 0 ⟨false, true, false⟩
     ⟨some ⟨["url_id", "visit_time"], ⟨[1], [⟨1, 5⟩], []⟩⟩, none, none⟩
     [(noInjection,
       ⟨some ⟨["url_id", "visit_time"], ⟨[1], [⟨1, 5⟩], []⟩⟩, none, none⟩)]
     [] [] (by decide)⟩

end PyCache
